import Mathlib

/-!
Verification of the CC2420 radio driver (register codec, RAM addressing,
radio-controller protocol) against its specification.

Machine integers are modelled as `Nat` with explicit `% 256` where the Rust
source casts to `u8`.  Bit operations mirror the source's `|`, `&`, `<<`, `>>`.
The SPI transport collaborator is modelled as a function from the outbound
frame to an `Except`-wrapped response; a full-duplex `transfer_in_place`
overwrites the buffer with the response.  Fallible operations return
`Except`; Rust panics are modelled as `Option.none`.
-/

set_option maxRecDepth 16384

deriving instance DecidableEq for Except

namespace CC2420

/-- `u16::from_le_bytes` on a two-byte buffer (`getD` mirrors fixed-size array access). -/
def fromLeBytes2 (b : List Nat) : Nat :=
  b.getD 0 0 + 256 * b.getD 1 0

/-- `u16::from_be_bytes` on a two-byte buffer. -/
def fromBeBytes2 (b : List Nat) : Nat :=
  256 * b.getD 0 0 + b.getD 1 0

/-- `u16::to_le_bytes`. -/
def toLeBytes2 (v : Nat) : List Nat :=
  [v % 256, v / 256 % 256]

/-- `u16::to_be_bytes`. -/
def toBeBytes2 (v : Nat) : List Nat :=
  [v / 256 % 256, v % 256]

/-- `status.rs`: the six status flags decoded from one status byte
(field names as in the source, including the `rssi_valud` typo). -/
structure RadioStatus where
  xosx_stable : Bool
  tx_underflow : Bool
  enc_busy : Bool
  tx_active : Bool
  lock : Bool
  rssi_valud : Bool
deriving DecidableEq, Repr

/-- `status.rs`: `impl From<u8> for RadioStatus` — pure bit tests
(`(value & 1 << 6) != 0` is `testBit 6`, and so on down to bit 1). -/
def RadioStatus.ofByte (value : Nat) : RadioStatus :=
  { xosx_stable := value.testBit 6
    tx_underflow := value.testBit 5
    enc_busy := value.testBit 4
    tx_active := value.testBit 3
    lock := value.testBit 2
    rssi_valud := value.testBit 1 }

/-- `strobe.rs`: single-byte command opcodes. -/
inductive Strobe where
  | ReadStatus
  | XOSCOn
  | CalibrateFrequency
  | EnableRx
  | EnableTx
  | EnableTxCCA
  | DisableRxTx
  | XOSCOff
  | FlushRx
  | FlushTx
  | Ack
  | AckPend
  | RxDecryption
  | TxEncryption
  | AesEncryption
  | TxFifo
  | RxFifo
deriving DecidableEq, Repr

/-- `strobe.rs`: `Strobe::opcode` (the enum discriminant values). -/
def Strobe.opcode : Strobe → Nat
  | .ReadStatus => 0x00
  | .XOSCOn => 0x01
  | .CalibrateFrequency => 0x02
  | .EnableRx => 0x03
  | .EnableTx => 0x04
  | .EnableTxCCA => 0x05
  | .DisableRxTx => 0x06
  | .XOSCOff => 0x07
  | .FlushRx => 0x08
  | .FlushTx => 0x09
  | .Ack => 0x0A
  | .AckPend => 0x0B
  | .RxDecryption => 0x0C
  | .TxEncryption => 0x0D
  | .AesEncryption => 0x0E
  | .TxFifo => 0x3E
  | .RxFifo => 0x3F

/-- `error.rs`: `RadioError<SPIE, GPIOE>` (the source's `InvalidBufferLenth`
spelling is kept). -/
inductive RadioError (spie gpioe : Type) where
  | InvalidBufferLenth (expected found : Nat)
  | InvalidConfiguration (msg : String)
  | FailedConfiguration (msg : String)
  | GpioError (e : gpioe)
  | SpiError (e : spie)
deriving DecidableEq

/-- `ram.rs`: the RAM sectors. -/
inductive Ram where
  | ShortAddress
  | PanID
  | IEEEAddress
  | TxNonce
  | Key1
  | EncryptionBuffer
  | RxNonce
  | Key0
  | RxFifo
  | TxFifo
deriving DecidableEq, Repr

/-- `ram.rs`: the enum discriminants (`self as u16`). -/
def Ram.value : Ram → Nat
  | .ShortAddress => 0x16A
  | .PanID => 0x168
  | .IEEEAddress => 0x160
  | .TxNonce => 0x140
  | .Key1 => 0x130
  | .EncryptionBuffer => 0x120
  | .RxNonce => 0x110
  | .Key0 => 0x100
  | .RxFifo => 0x080
  | .TxFifo => 0x000

/-- `ram.rs`: `Ram::read_address` —
`(((0x7F & value) | (1 << 7)) as u8, ((((0x3 << 7) & value) >> 1) | (1 << 5)) as u8)`. -/
def Ram.read_address (r : Ram) : Nat × Nat :=
  let value := r.value
  ((((0x7F &&& value) ||| (1 <<< 7))) % 256,
   ((((0x3 <<< 7) &&& value) >>> 1) ||| (1 <<< 5)) % 256)

/-- `ram.rs`: `Ram::write_address` — same as `read_address` without the
`1 << 5` direction bit in the second byte. -/
def Ram.write_address (r : Ram) : Nat × Nat :=
  let value := r.value
  ((((0x7F &&& value) ||| (1 <<< 7))) % 256,
   ((((0x3 <<< 7) &&& value) >>> 1)) % 256)

/-- `ram.rs`: `Ram::length`. -/
def Ram.length : Ram → Nat
  | .ShortAddress => 2
  | .PanID => 2
  | .IEEEAddress => 8
  | .TxNonce => 16
  | .Key1 => 16
  | .EncryptionBuffer => 16
  | .RxNonce => 16
  | .Key0 => 16
  | .RxFifo => 128
  | .TxFifo => 128

/-- `register/sync.rs`: `SyncWordRegister` (one 16-bit read-write field). -/
structure SyncWordRegister where
  sync_word : Nat
deriving DecidableEq, Repr

/-- `register/sync.rs`: `register_value` — the sync word itself. -/
def SyncWordRegister.registerValue (r : SyncWordRegister) : Nat :=
  r.sync_word

/-- `register/sync.rs`: `impl From<u16> for SyncWordRegister`. -/
def SyncWordRegister.fromU16 (value : Nat) : SyncWordRegister :=
  ⟨value⟩

/-- `register/modem_control.rs`: `ModemControlRegister0`.
`u8` fields are `Nat` (builder validation bounds them). -/
structure ModemControlRegister0 where
  reserved_frame_mode : Bool
  pan_coordinator : Bool
  adr_decode : Bool
  cca_hyst : Nat
  cca_mode : Nat
  auto_crc : Bool
  auto_ack : Bool
  preamble_length : Nat
deriving DecidableEq, Repr

/-- `register/modem_control.rs`: `ModemControlRegister0::register_value`. -/
def ModemControlRegister0.registerValue (r : ModemControlRegister0) : Nat :=
  let v : Nat := 0
  let v := if r.reserved_frame_mode then v ||| (1 <<< 13) else v
  let v := if r.pan_coordinator then v ||| (1 <<< 12) else v
  let v := if r.adr_decode then v ||| (1 <<< 11) else v
  let v := v ||| (r.cca_hyst <<< 8)
  let v := v ||| (r.cca_mode <<< 6)
  let v := if r.auto_crc then v ||| (1 <<< 5) else v
  let v := if r.auto_ack then v ||| (1 <<< 4) else v
  v ||| r.preamble_length

/-- `register/modem_control.rs`: `impl From<u16> for ModemControlRegister0`. -/
def ModemControlRegister0.fromU16 (value : Nat) : ModemControlRegister0 :=
  { reserved_frame_mode := value.testBit 13
    pan_coordinator := value.testBit 12
    adr_decode := value.testBit 11
    cca_hyst := (((0b111 <<< 8) &&& value) >>> 8) % 256
    cca_mode := (((0b11 <<< 6) &&& value) >>> 6) % 256
    auto_crc := value.testBit 5
    auto_ack := value.testBit 4
    preamble_length := (value &&& 0b1111) % 256 }

/-- `register/receive_control.rs`: `ReceiveControlRegister1`. -/
structure ReceiveControlRegister1 where
  rxbpf_locur : Bool
  rxbpf_midcur : Bool
  low_lowgain : Bool
  med_lowgain : Bool
  high_hgm : Bool
  med_hgm : Bool
  lna_cap_array : Nat
  rxmix_tail : Nat
  rxmix_vcm : Nat
  rxmix_current : Nat
deriving DecidableEq, Repr

/-- `register/receive_control.rs`: `ReceiveControlRegister1::register_value`
(`med_hgm` is placed at bit 8). -/
def ReceiveControlRegister1.registerValue (r : ReceiveControlRegister1) : Nat :=
  let v : Nat := 0
  let v := if r.rxbpf_locur then v ||| (1 <<< 13) else v
  let v := if r.rxbpf_midcur then v ||| (1 <<< 12) else v
  let v := if r.low_lowgain then v ||| (1 <<< 11) else v
  let v := if r.med_lowgain then v ||| (1 <<< 10) else v
  let v := if r.high_hgm then v ||| (1 <<< 9) else v
  let v := if r.med_hgm then v ||| (1 <<< 8) else v
  let v := v ||| (r.lna_cap_array <<< 6)
  let v := v ||| (r.rxmix_tail <<< 4)
  let v := v ||| (r.rxmix_vcm <<< 2)
  v ||| r.rxmix_current

/-- `register/receive_control.rs`: `impl From<u16> for ReceiveControlRegister1`.
The source's decode reads `med_hgm` from `(1 << 10) & value` (bit 10, the same
bit as `med_lowgain`), not bit 8; this is modelled exactly as written. -/
def ReceiveControlRegister1.fromU16 (value : Nat) : ReceiveControlRegister1 :=
  { rxbpf_locur := value.testBit 13
    rxbpf_midcur := value.testBit 12
    low_lowgain := value.testBit 11
    med_lowgain := value.testBit 10
    high_hgm := value.testBit 9
    med_hgm := value.testBit 10
    lna_cap_array := (((0b11 <<< 6) &&& value) >>> 6) % 256
    rxmix_tail := (((0b11 <<< 4) &&& value) >>> 4) % 256
    rxmix_vcm := (((0b11 <<< 2) &&& value) >>> 2) % 256
    rxmix_current := (0b11 &&& value) % 256 }

/-- `register/manufacturer_id.rs`: `UpperManufacturerID`
(read-only register; `register_value` is the sentinel 0). -/
structure UpperManufacturerID where
  version : Nat
  part_num : Nat
deriving DecidableEq, Repr

/-- `register/manufacturer_id.rs`: `impl From<u16> for UpperManufacturerID`. -/
def UpperManufacturerID.fromU16 (value : Nat) : UpperManufacturerID :=
  { version := (((0xF <<< 12) &&& value) >>> 12) % 256
    part_num := value &&& 0xFFF }

/-- `config.rs`: `Configuration` (byte-array fields as byte lists). -/
structure Configuration where
  pan_coordinator : Bool
  address_decoding : Bool
  enable_crc : Bool
  auto_acknowledge : Bool
  preamble_length : Nat
  sync_word : List Nat
  short_address : List Nat
  pan_identifier : List Nat
  ieee_address : List Nat
  tx_encryption_key : List Nat
  rx_decryption_key : List Nat
deriving DecidableEq, Repr

/-- `config.rs`: the `#[builder(default = ...)]` values of every field. -/
def Configuration.default : Configuration :=
  { pan_coordinator := false
    address_decoding := true
    enable_crc := true
    auto_acknowledge := false
    preamble_length := 2
    sync_word := [0xA7, 0x0F]
    short_address := [0x12, 0x34]
    pan_identifier := [0x12, 0x34]
    ieee_address := [0x12, 0x34, 0x56, 0x78, 0x9A, 0xBC, 0xDE, 0xF0]
    tx_encryption_key := List.replicate 16 0
    rx_decryption_key := List.replicate 16 0 }

/-! ## SPI transport model

`embedded_hal::spi::SpiDevice` is a collaborator: it is modelled as a
function from the outbound frame to an `Except`-wrapped inbound frame.
`transfer_in_place` overwrites the buffer with the response (response bytes
replace the buffer prefix; a full-length response replaces it entirely). -/

/-- The SPI collaborator: outbound bytes to `Except`-wrapped inbound bytes. -/
def Spi (ε : Type) : Type := List Nat → Except ε (List Nat)

/-- `SpiDevice::transfer_in_place`: the response overwrites the buffer in
place, so the result always has the buffer's length. -/
def transferInPlace {ε : Type} (spi : Spi ε) (buf : List Nat) : Except ε (List Nat) :=
  match spi buf with
  | .error e => .error e
  | .ok r => .ok (r.take buf.length ++ buf.drop r.length)

/-- An SPI device that always answers, with response function `g`. -/
def okSpiOf {ε : Type} (g : List Nat → List Nat) : Spi ε :=
  fun frame => .ok (g frame)

/-- The buffer contents after a successful in-place transfer on `okSpiOf g`. -/
def okTransfer (g : List Nat → List Nat) (f : List Nat) : List Nat :=
  (g f).take f.length ++ f.drop (g f).length

/-- The trace of a radio operation: the outbound frames of every transport
call actually issued, in order. -/
abbrev Trace := List (List Nat)

/-- Early-return composition for radio operations: propagate the error and
its trace, otherwise run the continuation and concatenate traces
(this is the `?` operator of the Rust source). -/
def step {ε γ α β : Type} (x : Except (RadioError ε γ) α × Trace)
    (f : α → Except (RadioError ε γ) β × Trace) :
    Except (RadioError ε γ) β × Trace :=
  match x with
  | (.error e, t) => (.error e, t)
  | (.ok a, t) => let (r, t') := f a; (r, t ++ t')

/-! ## Register wire frames

`lib.rs` calls `register.write_value()` and `register.read_address()` on the
`Register` trait; the trait's implementation of these two methods is not part
of the checked-in sources (the register modules only define `register_value`,
`address` and `fill_from_buffer`). -/

/-- Modelled from the spec: the missing `Register::write_value` — the
register-write wire frame is `[addr | 0x40, valueLo, valueHi]`
(value little-endian, direction bit folded into the address byte). -/
def regWriteFrame (addr value : Nat) : List Nat :=
  [(addr ||| 0x40) % 256, value % 256, value / 256 % 256]

/-- Modelled from the spec: the missing `Register::read_address` — the
register-read wire frame is `[addr, 0, 0]`. -/
def regReadFrame (addr : Nat) : List Nat :=
  [addr % 256, 0, 0]

/-- `lib.rs` `Radio::write_register`: transfer the write frame, return the
status decoded from the first returned byte. -/
def write_register {ε γ : Type} (spi : Spi ε) (addr value : Nat) :
    Except (RadioError ε γ) RadioStatus × Trace :=
  let frame := regWriteFrame addr value
  match transferInPlace spi frame with
  | .error e => (.error (.SpiError e), [frame])
  | .ok buf => (.ok (RadioStatus.ofByte (buf.getD 0 0)), [frame])

/-- `u16::from_le_bytes(buffer[1..3])`: the 16-bit value a register read
transfers back (`fill_from_buffer` in each register module). -/
def regReadValue (buf : List Nat) : Nat :=
  buf.getD 1 0 + 256 * buf.getD 2 0

/-- `lib.rs` `Radio::read_register`: send `[read_address, 0, 0]`, return the
status from the first returned byte and the little-endian 16-bit register
value from the next two (the caller decodes it with the register's `From<u16>`). -/
def read_register {ε γ : Type} (spi : Spi ε) (addr : Nat) :
    Except (RadioError ε γ) (RadioStatus × Nat) × Trace :=
  let frame := regReadFrame addr
  match transferInPlace spi frame with
  | .error e => (.error (.SpiError e), [frame])
  | .ok buf => (.ok (RadioStatus.ofByte (buf.getD 0 0), regReadValue buf), [frame])

/-! ## RAM operations -/

/-- The outbound frame of `Radio::write_ram`: write address bytes then data. -/
def ramWriteFrame (ram : Ram) (data : List Nat) : List Nat :=
  ram.write_address.1 :: ram.write_address.2 :: data

/-- The outbound frame of `Radio::read_ram`: read address bytes then zeros
(the `vec![0u8; 2 + buffer.len()]` scratch buffer), sized by the sector. -/
def ramReadFrame (ram : Ram) (len : Nat) : List Nat :=
  ram.read_address.1 :: ram.read_address.2 :: List.replicate len 0

/-- `lib.rs` `Radio::write_ram`: reject a wrong-length buffer before any
transport call, else transfer address+data and return the status byte. -/
def write_ram {ε γ : Type} (spi : Spi ε) (ram : Ram) (data : List Nat) :
    Except (RadioError ε γ) RadioStatus × Trace :=
  if data.length ≠ ram.length then
    (.error (.InvalidBufferLenth ram.length data.length), [])
  else
    let frame := ramWriteFrame ram data
    match transferInPlace spi frame with
    | .error e => (.error (.SpiError e), [frame])
    | .ok buf => (.ok (RadioStatus.ofByte (buf.getD 0 0)), [frame])

/-- `lib.rs` `Radio::read_ram`: reject a wrong-length destination buffer
before any transport call, else transfer an address-plus-zeros frame and
return the status byte and the payload (`write_buffer[2..]`). -/
def read_ram {ε γ : Type} (spi : Spi ε) (ram : Ram) (buffer : List Nat) :
    Except (RadioError ε γ) (RadioStatus × List Nat) × Trace :=
  if buffer.length ≠ ram.length then
    (.error (.InvalidBufferLenth ram.length buffer.length), [])
  else
    let frame := ramReadFrame ram buffer.length
    match transferInPlace spi frame with
    | .error e => (.error (.SpiError e), [frame])
    | .ok buf => (.ok (RadioStatus.ofByte (buf.getD 0 0), buf.drop 2), [frame])

/-! ## Strobe-only operations -/

/-- `lib.rs` `Radio::flush_tx_fifo`. -/
def flush_tx_fifo {ε γ : Type} (spi : Spi ε) :
    Except (RadioError ε γ) RadioStatus × Trace :=
  let frame := [Strobe.FlushTx.opcode]
  match transferInPlace spi frame with
  | .error e => (.error (.SpiError e), [frame])
  | .ok buf => (.ok (RadioStatus.ofByte (buf.getD 0 0)), [frame])

/-- `lib.rs` `Radio::xosc_on`. -/
def xosc_on {ε γ : Type} (spi : Spi ε) :
    Except (RadioError ε γ) RadioStatus × Trace :=
  let frame := [Strobe.XOSCOn.opcode]
  match transferInPlace spi frame with
  | .error e => (.error (.SpiError e), [frame])
  | .ok buf => (.ok (RadioStatus.ofByte (buf.getD 0 0)), [frame])

/-- `lib.rs` `Radio::status`. -/
def status {ε γ : Type} (spi : Spi ε) :
    Except (RadioError ε γ) RadioStatus × Trace :=
  let frame := [Strobe.ReadStatus.opcode]
  match transferInPlace spi frame with
  | .error e => (.error (.SpiError e), [frame])
  | .ok buf => (.ok (RadioStatus.ofByte (buf.getD 0 0)), [frame])

/-- `lib.rs` `Radio::calibrate_tx`. -/
def calibrate_tx {ε γ : Type} (spi : Spi ε) :
    Except (RadioError ε γ) RadioStatus × Trace :=
  let frame := [Strobe.CalibrateFrequency.opcode]
  match transferInPlace spi frame with
  | .error e => (.error (.SpiError e), [frame])
  | .ok buf => (.ok (RadioStatus.ofByte (buf.getD 0 0)), [frame])

/-! ## Frame transmission and reception -/

/-- `lib.rs` `Radio::send_frame`: flush the TX FIFO, then reject payloads
over 128 bytes, else transfer the TX-FIFO write frame
(`buffer[..(1 + data.len())]` with opcode `0x3E`) and the TX strobe. -/
def send_frame {ε γ : Type} (spi : Spi ε) (data : List Nat) (cca : Bool) :
    Except (RadioError ε γ) RadioStatus × Trace :=
  step (flush_tx_fifo spi) fun _ =>
  if 128 < data.length then
    (.error (.InvalidBufferLenth 128 data.length), [])
  else
    let frame := Strobe.TxFifo.opcode :: data
    match transferInPlace spi frame with
    | .error e => (.error (.SpiError e), [frame])
    | .ok _ =>
      let sframe := [if cca then Strobe.EnableTxCCA.opcode else Strobe.EnableTx.opcode]
      match transferInPlace spi sframe with
      | .error e => (.error (.SpiError e), [frame, sframe])
      | .ok buf => (.ok (RadioStatus.ofByte (buf.getD 0 0)), [frame, sframe])

/-- `lib.rs` `Radio::send`, lines 262–280: the payload portions of the
TX-FIFO write frames, in order.  The loop writes the full 128-byte chunks
`data[start*128..(start+1)*128]` for `start in 0..(data.len()/128)`; the
final frame's payload is `&data[data.len()/128..]` (the source slices from
index `len/128`, not from byte offset `(len/128)*128`).  The final
`copy_from_slice` into `data_buffer[1..(1+final_frame.len())]` panics
(`none`) when the final payload exceeds the 128 remaining bytes of the
129-byte `data_buffer`. -/
def send_txfifo_chunks (data : List Nat) : Option (List (List Nat)) :=
  let fullChunks := (List.range (data.length / 128)).map
    (fun start => (data.drop (start * 128)).take 128)
  let finalFrame := data.drop (data.length / 128)
  if finalFrame.length ≤ 128 then some (fullChunks ++ [finalFrame]) else none

/-- `lib.rs` `Radio::receive`: read `min(129, buffer.len())` payload bytes
with the RX-FIFO opcode, copy them into the caller's buffer, and return a
status decoded from `buffer[0]` — the caller's buffer's first element after
the copy.  Panics (`none`) reproduce the source's: the transfer slice
`read_buffer[..=data_len]` needs `data_len + 1 ≤ 129`; the
`copy_from_slice` needs `buffer.len() = data_len`; `buffer[0]` needs a
non-empty buffer. -/
def receive {ε γ : Type} (spi : Spi ε) (buffer : List Nat) :
    Option (Except (RadioError ε γ) RadioStatus × Trace) :=
  let dataLen := min 129 buffer.length
  if dataLen + 1 ≤ 129 then
    let readBuffer := Strobe.RxFifo.opcode :: List.replicate 128 0
    let frame := readBuffer.take (dataLen + 1)
    match transferInPlace spi frame with
    | .error e => some (.error (.SpiError e), [frame])
    | .ok newFrame =>
      if buffer.length = dataLen then
        let readBuffer' := newFrame ++ readBuffer.drop (dataLen + 1)
        let buffer' := (readBuffer'.drop 1).take dataLen
        match buffer'.head? with
        | some b => some (.ok (RadioStatus.ofByte b), [frame])
        | none => none
      else none
  else none

/-- `lib.rs` `Radio::version_number`: reads the upper manufacturer-ID
register, but discards the read's result (`let _ = ...` without `?`), so a
transport error leaves the register at its builder default
(`version = 2`) and the method still returns `Ok(register.version)`. -/
def version_number {ε γ : Type} (spi : Spi ε) :
    Except (RadioError ε γ) Nat × Trace :=
  let frame := regReadFrame 0x1F
  match transferInPlace spi frame with
  | .error _ => (.ok 2, [frame])
  | .ok buf => (.ok (UpperManufacturerID.fromU16 (regReadValue buf)).version, [frame])

/-! ## Key/address accessors used by `configure` -/

/-- `lib.rs` `Radio::set_short_address`: big-endian bytes into RAM. -/
def set_short_address {ε γ : Type} (spi : Spi ε) (value : Nat) :
    Except (RadioError ε γ) RadioStatus × Trace :=
  write_ram spi .ShortAddress (toBeBytes2 value)

/-- `lib.rs` `Radio::read_short_address`: RAM bytes as a big-endian `u16`. -/
def read_short_address {ε γ : Type} (spi : Spi ε) :
    Except (RadioError ε γ) Nat × Trace :=
  step (read_ram spi .ShortAddress (List.replicate 2 0)) fun r =>
  (.ok (fromBeBytes2 r.2), [])

/-- `lib.rs` `Radio::set_pan_id`: big-endian bytes into RAM. -/
def set_pan_id {ε γ : Type} (spi : Spi ε) (value : Nat) :
    Except (RadioError ε γ) RadioStatus × Trace :=
  write_ram spi .PanID (toBeBytes2 value)

/-- `lib.rs` `Radio::read_pan_id`: RAM bytes as a big-endian `u16`. -/
def read_pan_id {ε γ : Type} (spi : Spi ε) :
    Except (RadioError ε γ) Nat × Trace :=
  step (read_ram spi .PanID (List.replicate 2 0)) fun r =>
  (.ok (fromBeBytes2 r.2), [])

/-- `lib.rs` `Radio::set_ieee_address`. -/
def set_ieee_address {ε γ : Type} (spi : Spi ε) (address : List Nat) :
    Except (RadioError ε γ) RadioStatus × Trace :=
  write_ram spi .IEEEAddress address

/-- `lib.rs` `Radio::read_ieee_address`. -/
def read_ieee_address {ε γ : Type} (spi : Spi ε) :
    Except (RadioError ε γ) (List Nat) × Trace :=
  step (read_ram spi .IEEEAddress (List.replicate 8 0)) fun r =>
  (.ok r.2, [])

/-- `lib.rs` `Radio::set_key_1`. -/
def set_key_1 {ε γ : Type} (spi : Spi ε) (key : List Nat) :
    Except (RadioError ε γ) RadioStatus × Trace :=
  write_ram spi .Key1 key

/-- `lib.rs` `Radio::read_key_1`. -/
def read_key_1 {ε γ : Type} (spi : Spi ε) :
    Except (RadioError ε γ) (List Nat) × Trace :=
  step (read_ram spi .Key1 (List.replicate 16 0)) fun r =>
  (.ok r.2, [])

/-- `lib.rs` `Radio::set_key_0`. -/
def set_key_0 {ε γ : Type} (spi : Spi ε) (key : List Nat) :
    Except (RadioError ε γ) RadioStatus × Trace :=
  write_ram spi .Key0 key

/-- `lib.rs` `Radio::read_key_0`. -/
def read_key_0 {ε γ : Type} (spi : Spi ε) :
    Except (RadioError ε γ) (List Nat) × Trace :=
  step (read_ram spi .Key0 (List.replicate 16 0)) fun r =>
  (.ok r.2, [])

/-! ## configure -/

/-- `lib.rs` lines 77–84 with `modem_control.rs`'s builder: the modem
register built from a `Configuration`.  Of the validated fields only
`preamble_length` is set by `configure`, so the build fails exactly when it
exceeds 15; the unset fields keep their builder defaults. -/
def Configuration.buildModemConfig (c : Configuration) :
    Except String ModemControlRegister0 :=
  if 15 < c.preamble_length then
    .error "Invalid Preamble Length, Expected 0<=PREAMBLE_LENGTH<=15"
  else
    .ok { reserved_frame_mode := false
          pan_coordinator := c.pan_coordinator
          adr_decode := c.address_decoding
          cca_hyst := 2
          cca_mode := 3
          auto_crc := c.enable_crc
          auto_ack := c.auto_acknowledge
          preamble_length := c.preamble_length }

/-- The modem register `configure` writes (the `Ok` payload of
`buildModemConfig`). -/
def Configuration.modemRegister (c : Configuration) : ModemControlRegister0 :=
  { reserved_frame_mode := false
    pan_coordinator := c.pan_coordinator
    adr_decode := c.address_decoding
    cca_hyst := 2
    cca_mode := 3
    auto_crc := c.enable_crc
    auto_ack := c.auto_acknowledge
    preamble_length := c.preamble_length }

/-- `lib.rs` lines 94–97: the sync-word register `configure` writes —
`SyncWordRegisterBuilder::default().sync_word(u16::from_le_bytes(config.sync_word))`. -/
def Configuration.syncRegister (c : Configuration) : SyncWordRegister :=
  ⟨fromLeBytes2 c.sync_word⟩

/-- `lib.rs` `Radio::configure`, lines 76–144: the seven write/read-back/
compare steps (register addresses `0x11` for MDMCTRL0 and `0x14` for
SYNCWORD).  The `delay.delay_us(..)` calls between write and read touch no
transport and are not modelled. -/
def configureSteps {ε γ : Type} (spi : Spi ε) (config : Configuration) :
    Except (RadioError ε γ) Unit × Trace :=
  match config.buildModemConfig with
  | .error e => (.error (.InvalidConfiguration e), [])
  | .ok modem_config =>
  step (write_register spi 0x11 modem_config.registerValue) fun _ =>
  step (read_register spi 0x11) fun r1 =>
  if ModemControlRegister0.fromU16 r1.2 = modem_config then
    let sync_word := config.syncRegister
    step (write_register spi 0x14 sync_word.registerValue) fun _ =>
    step (read_register spi 0x14) fun r2 =>
    if SyncWordRegister.fromU16 r2.2 = sync_word then
      step (set_short_address spi (fromLeBytes2 config.short_address)) fun _ =>
      step (read_short_address spi) fun sa =>
      if toLeBytes2 sa = config.short_address then
        step (set_pan_id spi (fromLeBytes2 config.pan_identifier)) fun _ =>
        step (read_pan_id spi) fun pid =>
        if toLeBytes2 pid = config.pan_identifier then
          step (set_ieee_address spi config.ieee_address) fun _ =>
          step (read_ieee_address spi) fun ia =>
          if ia = config.ieee_address then
            step (set_key_1 spi config.tx_encryption_key) fun _ =>
            step (read_key_1 spi) fun k1 =>
            if k1 = config.tx_encryption_key then
              step (set_key_0 spi config.rx_decryption_key) fun _ =>
              step (read_key_0 spi) fun k0 =>
              if k0 = config.rx_decryption_key then (.ok (), [])
              else (.error (.FailedConfiguration "Configuration of Rx Encryption Key Failed"), [])
            else (.error (.FailedConfiguration "Configuration of Tx Encryption Key Failed"), [])
          else (.error (.FailedConfiguration "Configuration of IEEE Address Failed"), [])
        else (.error (.FailedConfiguration "Configuration of Pan ID Failed"), [])
      else (.error (.FailedConfiguration "Configuration of Short Address Failed"), [])
    else (.error (.FailedConfiguration "Configuration of Sync Word Failed"), [])
  else (.error (.FailedConfiguration "Configuration of Modem Failed"), [])

/-- `lib.rs` lines 147–151 and 156: the `while !status.xosx_stable` polling
loop followed by `calibrate_tx`, with explicit fuel for the unbounded loop
(`none` models non-termination within the fuel).  The `powered_up := true`
flag assignment touches no transport. -/
def pollXosc {ε γ : Type} (spi : Spi ε) :
    Nat → RadioStatus → Trace → Option (Except (RadioError ε γ) RadioStatus × Trace)
  | 0, st, t =>
    if st.xosx_stable then
      let (r, t') := calibrate_tx spi
      some (r, t ++ t')
    else none
  | fuel + 1, st, t =>
    if st.xosx_stable then
      let (r, t') := calibrate_tx spi
      some (r, t ++ t')
    else
      match status spi with
      | (.error e, t') => some (.error e, t ++ t')
      | (.ok st', t') => pollXosc spi fuel st' (t ++ t')

/-- `lib.rs` `Radio::configure`: the seven configuration steps, then
starting the crystal oscillator and polling until it is stable, then TX
calibration. -/
def configure {ε γ : Type} (spi : Spi ε) (config : Configuration) (fuel : Nat) :
    Option (Except (RadioError ε γ) RadioStatus × Trace) :=
  match configureSteps spi config with
  | (.error e, t) => some (.error e, t)
  | (.ok _, t) =>
    match xosc_on spi with
    | (.error e, t') => some (.error e, t ++ t')
    | (.ok st, t') => pollXosc spi fuel st (t ++ t')

/-! ## Concrete transport doubles used in the theorems -/

/-- Loopback transport double: every transfer succeeds, echoing the frame. -/
def idSpi : Spi Unit := okSpiOf (fun f => f)

/-- Always-failing transport double. -/
def errSpiU : Spi Unit := fun _ => .error ()

/-- Transport double for `receive`: answers the 2-byte RX-FIFO read with
status byte `0x40` (oscillator stable) followed by a zero payload byte. -/
def g3 : List Nat → List Nat :=
  fun f => if f = [0x3F, 0] then [0x40, 0] else f

/-- Transport double for `configure`: the modem read-back returns the value
written for a default `Configuration` (`0x0AE2`), every other read returns
zeros, so the sync-word read-back mismatches. -/
def gW : List Nat → List Nat :=
  fun f => if f = [0x11, 0, 0] then [0, 0xE2, 0x0A] else [0, 0, 0]

/-- The 16-bit value a register read-back yields on `okSpiOf g`. -/
def regReadback (g : List Nat → List Nat) (addr : Nat) : Nat :=
  regReadValue (okTransfer g (regReadFrame addr))

/-- The payload bytes a RAM sector read-back yields on `okSpiOf g`. -/
def ramReadback (g : List Nat → List Nat) (r : Ram) : List Nat :=
  (okTransfer g (ramReadFrame r r.length)).drop 2

/-- The outbound frames of `configure`'s seven write/read-back steps, in
order; a run that aborts after step `j` has issued exactly the first `2*j`
of them. -/
def configFrames (c : Configuration) : Trace :=
  [regWriteFrame 0x11 c.modemRegister.registerValue,
   regReadFrame 0x11,
   regWriteFrame 0x14 c.syncRegister.registerValue,
   regReadFrame 0x14,
   ramWriteFrame .ShortAddress (toBeBytes2 (fromLeBytes2 c.short_address)),
   ramReadFrame .ShortAddress 2,
   ramWriteFrame .PanID (toBeBytes2 (fromLeBytes2 c.pan_identifier)),
   ramReadFrame .PanID 2,
   ramWriteFrame .IEEEAddress c.ieee_address,
   ramReadFrame .IEEEAddress 8,
   ramWriteFrame .Key1 c.tx_encryption_key,
   ramReadFrame .Key1 16,
   ramWriteFrame .Key0 c.rx_decryption_key,
   ramReadFrame .Key0 16]

/-! ## Helper lemmas -/

theorem transferInPlace_okSpiOf {ε : Type} (g : List Nat → List Nat) (f : List Nat) :
    transferInPlace (okSpiOf (ε := ε) g) f = .ok (okTransfer g f) := rfl

theorem okTransfer_length (g : List Nat → List Nat) (f : List Nat) :
    (okTransfer g f).length = f.length := by
  simp [okTransfer]
  omega

theorem write_register_okSpiOf (g : List Nat → List Nat) (a v : Nat) :
    write_register (ε := Unit) (γ := Unit) (okSpiOf g) a v =
      (.ok (RadioStatus.ofByte ((okTransfer g (regWriteFrame a v)).getD 0 0)),
       [regWriteFrame a v]) := rfl

theorem read_register_okSpiOf (g : List Nat → List Nat) (a : Nat) :
    read_register (ε := Unit) (γ := Unit) (okSpiOf g) a =
      (.ok (RadioStatus.ofByte ((okTransfer g (regReadFrame a)).getD 0 0),
            regReadback g a),
       [regReadFrame a]) := rfl

theorem write_ram_okSpiOf (g : List Nat → List Nat) (ram : Ram) (data : List Nat)
    (hlen : data.length = ram.length) :
    write_ram (ε := Unit) (γ := Unit) (okSpiOf g) ram data =
      (.ok (RadioStatus.ofByte ((okTransfer g (ramWriteFrame ram data)).getD 0 0)),
       [ramWriteFrame ram data]) := by
  simp [write_ram, hlen, transferInPlace_okSpiOf]

theorem read_ram_okSpiOf (g : List Nat → List Nat) (ram : Ram) (buffer : List Nat)
    (hlen : buffer.length = ram.length) :
    read_ram (ε := Unit) (γ := Unit) (okSpiOf g) ram buffer =
      (.ok (RadioStatus.ofByte ((okTransfer g (ramReadFrame ram buffer.length)).getD 0 0),
            (okTransfer g (ramReadFrame ram buffer.length)).drop 2),
       [ramReadFrame ram buffer.length]) := by
  simp [read_ram, hlen, transferInPlace_okSpiOf]

theorem set_short_address_okSpiOf (g : List Nat → List Nat) (v : Nat) :
    set_short_address (ε := Unit) (γ := Unit) (okSpiOf g) v =
      (.ok (RadioStatus.ofByte
          ((okTransfer g (ramWriteFrame .ShortAddress (toBeBytes2 v))).getD 0 0)),
       [ramWriteFrame .ShortAddress (toBeBytes2 v)]) := rfl

theorem read_short_address_okSpiOf (g : List Nat → List Nat) :
    read_short_address (ε := Unit) (γ := Unit) (okSpiOf g) =
      (.ok (fromBeBytes2 (ramReadback g .ShortAddress)),
       [ramReadFrame .ShortAddress 2]) := rfl

theorem set_pan_id_okSpiOf (g : List Nat → List Nat) (v : Nat) :
    set_pan_id (ε := Unit) (γ := Unit) (okSpiOf g) v =
      (.ok (RadioStatus.ofByte
          ((okTransfer g (ramWriteFrame .PanID (toBeBytes2 v))).getD 0 0)),
       [ramWriteFrame .PanID (toBeBytes2 v)]) := rfl

theorem read_pan_id_okSpiOf (g : List Nat → List Nat) :
    read_pan_id (ε := Unit) (γ := Unit) (okSpiOf g) =
      (.ok (fromBeBytes2 (ramReadback g .PanID)),
       [ramReadFrame .PanID 2]) := rfl

theorem set_ieee_address_okSpiOf (g : List Nat → List Nat) (addr : List Nat)
    (hlen : addr.length = 8) :
    set_ieee_address (ε := Unit) (γ := Unit) (okSpiOf g) addr =
      (.ok (RadioStatus.ofByte
          ((okTransfer g (ramWriteFrame .IEEEAddress addr)).getD 0 0)),
       [ramWriteFrame .IEEEAddress addr]) := by
  simp [set_ieee_address, write_ram, hlen, Ram.length, transferInPlace_okSpiOf]

theorem read_ieee_address_okSpiOf (g : List Nat → List Nat) :
    read_ieee_address (ε := Unit) (γ := Unit) (okSpiOf g) =
      (.ok (ramReadback g .IEEEAddress), [ramReadFrame .IEEEAddress 8]) := rfl

theorem set_key_1_okSpiOf (g : List Nat → List Nat) (key : List Nat)
    (hlen : key.length = 16) :
    set_key_1 (ε := Unit) (γ := Unit) (okSpiOf g) key =
      (.ok (RadioStatus.ofByte
          ((okTransfer g (ramWriteFrame .Key1 key)).getD 0 0)),
       [ramWriteFrame .Key1 key]) := by
  simp [set_key_1, write_ram, hlen, Ram.length, transferInPlace_okSpiOf]

theorem read_key_1_okSpiOf (g : List Nat → List Nat) :
    read_key_1 (ε := Unit) (γ := Unit) (okSpiOf g) =
      (.ok (ramReadback g .Key1), [ramReadFrame .Key1 16]) := rfl

theorem set_key_0_okSpiOf (g : List Nat → List Nat) (key : List Nat)
    (hlen : key.length = 16) :
    set_key_0 (ε := Unit) (γ := Unit) (okSpiOf g) key =
      (.ok (RadioStatus.ofByte
          ((okTransfer g (ramWriteFrame .Key0 key)).getD 0 0)),
       [ramWriteFrame .Key0 key]) := by
  simp [set_key_0, write_ram, hlen, Ram.length, transferInPlace_okSpiOf]

theorem read_key_0_okSpiOf (g : List Nat → List Nat) :
    read_key_0 (ε := Unit) (γ := Unit) (okSpiOf g) =
      (.ok (ramReadback g .Key0), [ramReadFrame .Key0 16]) := rfl

theorem buildModemConfig_ok (config : Configuration)
    (hpre : config.preamble_length ≤ 15) :
    config.buildModemConfig = .ok config.modemRegister := by
  simp [Configuration.buildModemConfig, Configuration.modemRegister,
    Nat.not_lt.mpr hpre]

theorem length_pos_of_head?_some {α : Type} {l : List α} {b : α}
    (h : l.head? = some b) : 0 < l.length := by
  cases l <;> simp_all

theorem length_zero_of_head?_none {α : Type} {l : List α}
    (h : l.head? = none) : l.length = 0 := by
  cases l <;> simp_all

/-! ## The claims -/

/-- Claim C1: the spec's round-trip invariant `decode(encode(x)) = x` for
registers whose fields are all read-write.  The SyncWord scenario holds
(`encode` of sync word `0x1234` is wire value `0x1234` and decodes back),
but the invariant fails for `ReceiveControlRegister1` — an all-read-write
register — because its decode reads `med_hgm` from bit 10 (the
`med_lowgain` bit) while encode places it at bit 8: with `med_hgm = true`
and `med_lowgain = false` (all fields in their legal ranges), the round
trip loses `med_hgm`. -/
theorem syncword_roundtrip_holds_but_rxctrl1_roundtrip_fails :
    (SyncWordRegister.mk 0x1234).registerValue = 0x1234 ∧
    SyncWordRegister.fromU16 0x1234 = SyncWordRegister.mk 0x1234 ∧
    ReceiveControlRegister1.fromU16
        (ReceiveControlRegister1.registerValue
          ⟨true, false, true, false, true, true, 1, 1, 1, 2⟩) ≠
      ⟨true, false, true, false, true, true, 1, 1, 1, 2⟩ ∧
    (ReceiveControlRegister1.fromU16
        (ReceiveControlRegister1.registerValue
          ⟨true, false, true, false, true, true, 1, 1, 1, 2⟩)).med_hgm = false := by
  refine ⟨rfl, rfl, by decide, by decide⟩

/-- Claim C2: for every RAM sector, the read and write addresses agree on
the first byte, differ exactly by the direction bit (bit 5 of the second
byte, set for read, clear for write), have the RAM-access high bit set in
the first byte, and split the sector's 9-bit offset as its low 7 bits in
the first byte and its two bank bits (offset divided by 128) in the second
byte. -/
theorem ram_read_write_address_layout :
    ∀ r : Ram,
      (Ram.read_address r).1 = (Ram.write_address r).1 ∧
      (Ram.read_address r).2 = (Ram.write_address r).2 + 32 ∧
      (Ram.write_address r).2 = r.value / 128 * 64 ∧
      ((Ram.read_address r).1).testBit 7 = true ∧
      (Ram.read_address r).1 % 128 = r.value % 128 := by
  intro r
  cases r <;> exact ⟨rfl, rfl, rfl, rfl, rfl⟩

/-- Claim C3: evaluation of `receive` at a one-byte buffer with a transport
answering status byte `0x40` and payload byte `0x00`: the source decodes
the returned `RadioStatus` from `buffer[0]` — the first *payload* byte
after the copy (here `0x00`, yielding all-false flags) — not from the
leading status byte of the transfer (here `0x40`, whose decoding would set
`xosx_stable`). -/
theorem receive_decodes_status_from_payload_byte :
    receive (ε := Unit) (γ := Unit) (okSpiOf g3) [7] =
      some (.ok (RadioStatus.ofByte 0x00), [[0x3F, 0]]) ∧
    (RadioStatus.ofByte 0x00).xosx_stable = false ∧
    (RadioStatus.ofByte 0x40).xosx_stable = true := by
  refine ⟨by decide, by decide, by decide⟩

/-- Claim C4: evaluation of `send`'s TX-FIFO writes at the 129-byte payload
`0, 1, ..., 128`: the full chunk is bytes `0..128`, but the final chunk is
`data[129/128..] = data[1..]` (the source slices the final frame from index
`len/128` instead of byte offset `(len/128)*128`), so the concatenation of
all written chunks is not the payload. -/
theorem send_chunks_at_129_bytes_do_not_reassemble :
    send_txfifo_chunks (List.range 129) =
      some [(List.range 129).take 128, (List.range 129).drop 1] ∧
    ((List.range 129).take 128 ++ (List.range 129).drop 1) ≠ List.range 129 := by
  refine ⟨by decide, by decide⟩

/-- Claim C5 (counterexample): `send_frame` with a 129-byte payload does
fail with expected=128, found=129, but only after issuing one transport
call — the TX-flush strobe frame `[0x09]` — so the trace is not empty,
refuting "issues zero transport calls". -/
theorem send_frame_129_flushes_before_length_check :
    send_frame (ε := Unit) (γ := Unit) idSpi (List.replicate 129 0) false =
      (.error (.InvalidBufferLenth 128 129), [[0x09]]) ∧
    ([[0x09]] : Trace) ≠ [] := by
  refine ⟨by decide, by decide⟩

/-- Claim C5 (amended): for every payload longer than 128 bytes, if the
TX-flush transfer succeeds, `send_frame` fails with a buffer-length error
reporting expected=128 and found equal to the actual length, after exactly
one transport call (the TX-flush strobe) and before any payload write. -/
theorem send_frame_overlong_rejected_after_flush {ε γ : Type} (spi : Spi ε)
    (data : List Nat) (cca : Bool) (s : List Nat)
    (hlen : 128 < data.length) (hok : spi [Strobe.FlushTx.opcode] = .ok s) :
    send_frame (γ := γ) spi data cca =
      (.error (.InvalidBufferLenth 128 data.length), [[Strobe.FlushTx.opcode]]) := by
  simp [send_frame, flush_tx_fifo, transferInPlace, hok, step, hlen]

/-- Witness for the amended C5 theorem at a concrete 129-byte payload. -/
theorem send_frame_overlong_rejected_after_flush_witness :
    send_frame (ε := Unit) (γ := Unit) idSpi (List.replicate 129 0) true =
      (.error (.InvalidBufferLenth 128 129), [[Strobe.FlushTx.opcode]]) := by
  exact send_frame_overlong_rejected_after_flush idSpi (List.replicate 129 0) true
    [Strobe.FlushTx.opcode] (by decide) rfl

/-- Claim C6: for every RAM sector and every buffer whose length differs
from the sector's declared length, both `write_ram` and `read_ram` fail
with a buffer-length error carrying expected = sector length and found =
buffer length, and issue no transport call (empty trace). -/
theorem ram_ops_reject_wrong_length_before_io {ε γ : Type} (spi : Spi ε)
    (ram : Ram) (data : List Nat) (h : data.length ≠ ram.length) :
    write_ram (γ := γ) spi ram data =
      (.error (.InvalidBufferLenth ram.length data.length), []) ∧
    read_ram (γ := γ) spi ram data =
      (.error (.InvalidBufferLenth ram.length data.length), []) := by
  constructor
  · simp [write_ram, h]
  · simp [read_ram, h]

/-- Witness for C6: a 3-byte buffer against the 2-byte PanID sector. -/
theorem ram_ops_reject_wrong_length_before_io_witness :
    write_ram (ε := Unit) (γ := Unit) idSpi .PanID [0, 0, 0] =
      (.error (.InvalidBufferLenth 2 3), []) ∧
    read_ram (ε := Unit) (γ := Unit) idSpi .PanID [0, 0, 0] =
      (.error (.InvalidBufferLenth 2 3), []) := by
  exact ram_ops_reject_wrong_length_before_io idSpi .PanID [0, 0, 0] (by decide)

/-- Claim C8: the default `Configuration` has CRC and address decoding
enabled and PAN-coordinator and auto-acknowledge disabled, but the 16-bit
value `configure` writes to the sync-word register for the default
configuration is `u16::from_le_bytes([0xA7, 0x0F]) = 0x0FA7`, not the IEEE
802.15.4 reset value `0xA70F`. -/
theorem default_config_flags_but_sync_value_byteswapped :
    Configuration.default.enable_crc = true ∧
    Configuration.default.address_decoding = true ∧
    Configuration.default.pan_coordinator = false ∧
    Configuration.default.auto_acknowledge = false ∧
    (Configuration.syncRegister Configuration.default).registerValue = 0x0FA7 ∧
    (Configuration.syncRegister Configuration.default).registerValue ≠ 0xA70F := by
  refine ⟨rfl, rfl, rfl, rfl, rfl, by decide⟩

/-- Claim C9: evaluation of `version_number` against an always-failing
transport: because the source discards the register read's result
(`let _ = ...` without `?`), the transport error is not surfaced and the
call returns the success value `Ok(2)` (the register builder's default
version) instead of the wrapped transport error. -/
theorem version_number_returns_ok_on_transport_error :
    version_number (ε := Unit) (γ := Unit) errSpiU = (.ok 2, [[0x1F, 0, 0]]) := by
  decide

/-- Claim C10 (counterexample): the claim asserts `receive` is total for
buffers of length 1 through 129 inclusive, but at exactly 129 the transfer
slice `read_buffer[..=129]` of the 129-byte scratch array already panics
(modelled as `none`) even with a transport that always answers. -/
theorem receive_panics_at_exactly_129 :
    receive (ε := Unit) (γ := Unit) idSpi (List.replicate 129 7) = none := by
  decide

/-- Claim C10 (amended): against a transport that always answers, `receive`
returns normally exactly for caller buffers of length 1 through 128
inclusive; it panics on an empty buffer (indexing `buffer[0]`), and for
length 129 and beyond (the transfer slice `read_buffer[..=data_len]` with
`data_len = 129`, respectively the payload `copy_from_slice`). -/
theorem receive_total_iff_len_between_1_and_128 {γ : Type}
    (g : List Nat → List Nat) (buffer : List Nat) :
    (receive (ε := Unit) (γ := γ) (okSpiOf g) buffer).isSome ↔
      1 ≤ buffer.length ∧ buffer.length ≤ 128 := by
  by_cases h : buffer.length ≤ 128
  · have hmin : min 129 buffer.length = buffer.length := by omega
    have hc : buffer.length + 1 ≤ 129 := by omega
    simp only [receive, hmin, hc, if_true, transferInPlace_okSpiOf,
      eq_self_iff_true]
    split
    · rename_i b heq
      have hpos := length_pos_of_head?_some heq
      simp only [List.length_take, List.length_drop, List.length_append,
        okTransfer_length, List.length_cons, List.length_replicate] at hpos
      simp only [Option.isSome_some, true_iff]
      omega
    · rename_i heq
      have hzero := length_zero_of_head?_none heq
      simp only [List.length_take, List.length_drop, List.length_append,
        okTransfer_length, List.length_cons, List.length_replicate] at hzero
      simp only [Option.isSome_none, Bool.false_eq_true, false_iff]
      omega
  · have hmin : min 129 buffer.length = 129 := by omega
    have hc : ¬(129 + 1 ≤ 129) := by omega
    simp only [receive, hmin, hc, if_false, Option.isSome_none,
      Bool.false_eq_true, false_iff]
    omega

/-- Claim C7: in `configure`, whenever the read-back after a configuration
step differs from the value written (all earlier read-backs matching), the
call returns a failed-configuration error naming that step and issues no
transport call of any subsequent step: the trace is exactly the frames of
the completed steps.  One conjunct per step, in the order of the source
(modem, sync word, short address, PAN id, IEEE address, TX key, RX key);
in particular a sync-word mismatch yields the sync-word error with only the
first four frames issued, never reaching the short-address and later steps. -/
theorem configure_readback_mismatch_fails_named_step_and_stops
    (g : List Nat → List Nat) (config : Configuration) (fuel : Nat)
    (hpre : config.preamble_length ≤ 15) :
    (ModemControlRegister0.fromU16 (regReadback g 0x11) ≠ config.modemRegister →
      configure (ε := Unit) (γ := Unit) (okSpiOf g) config fuel =
        some (.error (.FailedConfiguration "Configuration of Modem Failed"),
          (configFrames config).take 2)) ∧
    (ModemControlRegister0.fromU16 (regReadback g 0x11) = config.modemRegister →
     SyncWordRegister.fromU16 (regReadback g 0x14) ≠ config.syncRegister →
      configure (ε := Unit) (γ := Unit) (okSpiOf g) config fuel =
        some (.error (.FailedConfiguration "Configuration of Sync Word Failed"),
          (configFrames config).take 4)) ∧
    (ModemControlRegister0.fromU16 (regReadback g 0x11) = config.modemRegister →
     SyncWordRegister.fromU16 (regReadback g 0x14) = config.syncRegister →
     toLeBytes2 (fromBeBytes2 (ramReadback g .ShortAddress)) ≠ config.short_address →
      configure (ε := Unit) (γ := Unit) (okSpiOf g) config fuel =
        some (.error (.FailedConfiguration "Configuration of Short Address Failed"),
          (configFrames config).take 6)) ∧
    (ModemControlRegister0.fromU16 (regReadback g 0x11) = config.modemRegister →
     SyncWordRegister.fromU16 (regReadback g 0x14) = config.syncRegister →
     toLeBytes2 (fromBeBytes2 (ramReadback g .ShortAddress)) = config.short_address →
     toLeBytes2 (fromBeBytes2 (ramReadback g .PanID)) ≠ config.pan_identifier →
      configure (ε := Unit) (γ := Unit) (okSpiOf g) config fuel =
        some (.error (.FailedConfiguration "Configuration of Pan ID Failed"),
          (configFrames config).take 8)) ∧
    (ModemControlRegister0.fromU16 (regReadback g 0x11) = config.modemRegister →
     SyncWordRegister.fromU16 (regReadback g 0x14) = config.syncRegister →
     toLeBytes2 (fromBeBytes2 (ramReadback g .ShortAddress)) = config.short_address →
     toLeBytes2 (fromBeBytes2 (ramReadback g .PanID)) = config.pan_identifier →
     config.ieee_address.length = 8 →
     ramReadback g .IEEEAddress ≠ config.ieee_address →
      configure (ε := Unit) (γ := Unit) (okSpiOf g) config fuel =
        some (.error (.FailedConfiguration "Configuration of IEEE Address Failed"),
          (configFrames config).take 10)) ∧
    (ModemControlRegister0.fromU16 (regReadback g 0x11) = config.modemRegister →
     SyncWordRegister.fromU16 (regReadback g 0x14) = config.syncRegister →
     toLeBytes2 (fromBeBytes2 (ramReadback g .ShortAddress)) = config.short_address →
     toLeBytes2 (fromBeBytes2 (ramReadback g .PanID)) = config.pan_identifier →
     config.ieee_address.length = 8 →
     ramReadback g .IEEEAddress = config.ieee_address →
     config.tx_encryption_key.length = 16 →
     ramReadback g .Key1 ≠ config.tx_encryption_key →
      configure (ε := Unit) (γ := Unit) (okSpiOf g) config fuel =
        some (.error (.FailedConfiguration "Configuration of Tx Encryption Key Failed"),
          (configFrames config).take 12)) ∧
    (ModemControlRegister0.fromU16 (regReadback g 0x11) = config.modemRegister →
     SyncWordRegister.fromU16 (regReadback g 0x14) = config.syncRegister →
     toLeBytes2 (fromBeBytes2 (ramReadback g .ShortAddress)) = config.short_address →
     toLeBytes2 (fromBeBytes2 (ramReadback g .PanID)) = config.pan_identifier →
     config.ieee_address.length = 8 →
     ramReadback g .IEEEAddress = config.ieee_address →
     config.tx_encryption_key.length = 16 →
     ramReadback g .Key1 = config.tx_encryption_key →
     config.rx_decryption_key.length = 16 →
     ramReadback g .Key0 ≠ config.rx_decryption_key →
      configure (ε := Unit) (γ := Unit) (okSpiOf g) config fuel =
        some (.error (.FailedConfiguration "Configuration of Rx Encryption Key Failed"),
          (configFrames config).take 14)) := by
  refine ⟨?_, ?_, ?_, ?_, ?_, ?_, ?_⟩
  · intro h1
    simp [configure, configureSteps, buildModemConfig_ok config hpre, step,
      write_register_okSpiOf, read_register_okSpiOf, h1, configFrames]
  · intro h1 h2
    simp [configure, configureSteps, buildModemConfig_ok config hpre, step,
      write_register_okSpiOf, read_register_okSpiOf, h1, h2, configFrames]
  · intro h1 h2 h3
    simp [configure, configureSteps, buildModemConfig_ok config hpre, step,
      write_register_okSpiOf, read_register_okSpiOf,
      set_short_address_okSpiOf, read_short_address_okSpiOf,
      h1, h2, h3, configFrames]
  · intro h1 h2 h3 h4
    simp [configure, configureSteps, buildModemConfig_ok config hpre, step,
      write_register_okSpiOf, read_register_okSpiOf,
      set_short_address_okSpiOf, read_short_address_okSpiOf,
      set_pan_id_okSpiOf, read_pan_id_okSpiOf,
      h1, h2, h3, h4, configFrames]
  · intro h1 h2 h3 h4 hlen8 h5
    simp [configure, configureSteps, buildModemConfig_ok config hpre, step,
      write_register_okSpiOf, read_register_okSpiOf,
      set_short_address_okSpiOf, read_short_address_okSpiOf,
      set_pan_id_okSpiOf, read_pan_id_okSpiOf,
      set_ieee_address_okSpiOf g config.ieee_address hlen8, read_ieee_address_okSpiOf,
      h1, h2, h3, h4, h5, configFrames]
  · intro h1 h2 h3 h4 hlen8 h5 hlen16a h6
    simp [configure, configureSteps, buildModemConfig_ok config hpre, step,
      write_register_okSpiOf, read_register_okSpiOf,
      set_short_address_okSpiOf, read_short_address_okSpiOf,
      set_pan_id_okSpiOf, read_pan_id_okSpiOf,
      set_ieee_address_okSpiOf g config.ieee_address hlen8, read_ieee_address_okSpiOf,
      set_key_1_okSpiOf g config.tx_encryption_key hlen16a, read_key_1_okSpiOf,
      h1, h2, h3, h4, h5, h6, configFrames]
  · intro h1 h2 h3 h4 hlen8 h5 hlen16a h6 hlen16b h7
    simp [configure, configureSteps, buildModemConfig_ok config hpre, step,
      write_register_okSpiOf, read_register_okSpiOf,
      set_short_address_okSpiOf, read_short_address_okSpiOf,
      set_pan_id_okSpiOf, read_pan_id_okSpiOf,
      set_ieee_address_okSpiOf g config.ieee_address hlen8, read_ieee_address_okSpiOf,
      set_key_1_okSpiOf g config.tx_encryption_key hlen16a, read_key_1_okSpiOf,
      set_key_0_okSpiOf g config.rx_decryption_key hlen16b, read_key_0_okSpiOf,
      h1, h2, h3, h4, h5, h6, h7, configFrames]

/-- Witness for C7 at the sync-word step: against a transport double whose
modem read-back matches the default configuration's written value and whose
sync-word read-back returns zeros, `configure` fails naming the sync-word
step after exactly the four frames of the modem and sync-word steps. -/
theorem configure_sync_word_mismatch_witness :
    configure (ε := Unit) (γ := Unit) (okSpiOf gW) Configuration.default 0 =
      some (.error (.FailedConfiguration "Configuration of Sync Word Failed"),
        [[0x51, 0xE2, 0x0A], [0x11, 0, 0], [0x54, 0xA7, 0x0F], [0x14, 0, 0]]) := by
  exact (configure_readback_mismatch_fails_named_step_and_stops gW
    Configuration.default 0 (by decide)).2.1 (by decide) (by decide)

end CC2420
